import Mathlib

/-!
Shallow embedding of the ExpiryX background evaluation jobs
(app/tasks/expiry_checker.py), their configuration (app/config.py) and the
slice of the data model they touch (app/models.py), together with proofs of
the behavioural properties of the two jobs: the expiry evaluation pass
(candidate selection, per-day alert deduplication, expired-batch transition,
rollback-on-error) and the low-stock pass.

Dates and timestamps are represented as integer day numbers; the SQLAlchemy
comparison of a timestamp column against a date value becomes an integer
comparison on the day number.  The database session is represented by an
explicit state record; uncommitted inserts made during a pass are visible to
later queries of the same pass (SQLAlchemy autoflush), which the embedding
captures by threading the alert list through the per-candidate loop.  A
pass returns in the Except monad: an uncaught exception aborts the pass and
the surrounding handler rolls the session back, leaving the state unchanged.
-/

namespace ExpiryX

/-- Conversion of a Gregorian calendar date to a day count (days since
1970-01-01), mirroring the day arithmetic of Python date objects. -/
def daysFromCivil (y m d : Int) : Int :=
  let y' := if m ≤ 2 then y - 1 else y
  let era := (if 0 ≤ y' then y' else y' - 399) / 400
  let yoe := y' - era * 400
  let mp := (m + 9) % 12
  let doy := (153 * mp + 2) / 5 + d - 1
  let doe := yoe * 365 + yoe / 4 - yoe / 100 + doy
  era * 146097 + doe - 719468

/-- app/config.py, class Settings: the two expiry thresholds consumed by the
expiry job (EXPIRY_WARNING_DAYS default 5, EXPIRY_CRITICAL_DAYS default 1).
The remaining settings fields are not read by the jobs. -/
structure Settings where
  EXPIRY_WARNING_DAYS : Int
  EXPIRY_CRITICAL_DAYS : Int
deriving DecidableEq

/-- A Settings value with the given thresholds. -/
def mkSettings (warning_days critical_days : Int) : Settings :=
  { EXPIRY_WARNING_DAYS := warning_days, EXPIRY_CRITICAL_DAYS := critical_days }

/-- The default configuration of app/config.py lines 46-47:
EXPIRY_WARNING_DAYS = 5, EXPIRY_CRITICAL_DAYS = 1. -/
def defaultSettings : Settings := mkSettings 5 1

/-- app/config.py performs no cross-field validation: Settings is a plain
pydantic settings class whose fields are independent integers, there is no
validator relating EXPIRY_CRITICAL_DAYS to EXPIRY_WARNING_DAYS, and the
startup path (app/main.py lifespan, start_expiry_checker) performs no
threshold check either.  Hence every pair of integer thresholds is accepted
at startup. -/
def configAccepts (_warning_days _critical_days : Int) : Bool :=
  true

/-- app/models.py, class Product: the fields read by the jobs. -/
structure Product where
  id : Nat
  name : String
deriving DecidableEq

/-- app/models.py, class Branch: the fields read by the jobs. -/
structure Branch where
  id : Nat
  name : String
deriving DecidableEq

/-- app/models.py, class Batch: the fields read or written by the jobs.
expiry_date is a day number. -/
structure Batch where
  id : Nat
  batch_number : String
  product_id : Nat
  branch_id : Nat
  current_quantity : Int
  expiry_date : Int
  is_active : Bool
  is_expired : Bool
deriving DecidableEq

/-- app/models.py, class Alert: the fields read or written by the jobs.
created_at is the day number of the insert (server default now()). -/
structure Alert where
  batch_id : Nat
  branch_id : Nat
  alert_level : String
  alert_type : String
  message : String
  days_to_expiry : Option Int
  status : String
  created_at : Int
deriving DecidableEq

/-- The slice of the relational store the two jobs read and write. -/
structure DBState where
  batches : List Batch
  products : List Product
  branches : List Branch
  alerts : List Alert
deriving DecidableEq

/-- The Notification Gateway (app/services/notification_service.py,
send_expiry_alert): called with (branch, product, batch, days_remaining,
alert_level); the result records whether the call succeeded (false models a
raised exception, which the job catches). -/
abbrev Notify := Branch → Product → Batch → Int → String → Bool

/-- sqlalchemy Result.scalar_one_or_none: none for an empty result, the row
for a singleton result, and MultipleResultsFound (an exception) for two or
more rows. -/
def scalarOneOrNone {α : Type} (xs : List α) : Except Unit (Option α) :=
  match xs with
  | [] => Except.ok none
  | [x] => Except.ok (some x)
  | _ => Except.error ()

/-- The WHERE clause of the candidate query of check_expiring_batches
(lines 42-49): is_active, expiry_date strictly after today, expiry_date at
most today + EXPIRY_WARNING_DAYS, positive current_quantity. -/
def isExpiryCandidate (se : Settings) (today : Int) (b : Batch) : Bool :=
  b.is_active && decide (today < b.expiry_date)
    && decide (b.expiry_date ≤ today + se.EXPIRY_WARNING_DAYS)
    && decide (0 < b.current_quantity)

/-- The inner joins of the candidate queries: each batch row is paired with
every product row matching its product_id and every branch row matching its
branch_id. -/
def joinPB (products : List Product) (branches : List Branch) (b : Batch) :
    List (Batch × Product × Branch) :=
  (products.filter fun p => p.id == b.product_id).flatMap fun p =>
    (branches.filter fun br => br.id == b.branch_id).map fun br => (b, p, br)

/-- The materialised candidate rows of check_expiring_batches
(result.all(), line 52). -/
def expiryCandidateRows (se : Settings) (today : Int) (s : DBState) :
    List (Batch × Product × Branch) :=
  (s.batches.filter (isExpiryCandidate se today)).flatMap (joinPB s.products s.branches)

/-- Alert level chosen at lines 61-76: critical when days_remaining is at
most EXPIRY_CRITICAL_DAYS, warning otherwise. -/
def expiryAlertLevel (se : Settings) (days_remaining : Int) : String :=
  if days_remaining ≤ se.EXPIRY_CRITICAL_DAYS then "critical" else "warning"

/-- Alert type chosen at lines 61-76. -/
def expiryAlertType (se : Settings) (days_remaining : Int) : String :=
  if days_remaining ≤ se.EXPIRY_CRITICAL_DAYS then "expiry_critical" else "expiry_warning"

/-- The rendered alert message of lines 64-76. -/
def expiryMessage (se : Settings) (p : Product) (b : Batch) (days_remaining : Int) : String :=
  if days_remaining ≤ se.EXPIRY_CRITICAL_DAYS then
    "CRITICAL: " ++ p.name ++ " (Batch: " ++ b.batch_number ++ ") expires in "
      ++ toString days_remaining ++ " day(s)! "
      ++ toString b.current_quantity ++ " units remaining."
  else
    "WARNING: " ++ p.name ++ " (Batch: " ++ b.batch_number ++ ") expires in "
      ++ toString days_remaining ++ " days. "
      ++ toString b.current_quantity ++ " units remaining."

/-- The WHERE clause of the dedup query at lines 79-87: same batch_id, same
alert_type, created_at on or after the start of today. -/
def expiryDedupMatch (today : Int) (bid : Nat) (atype : String) (a : Alert) : Bool :=
  a.batch_id == bid && a.alert_type == atype && decide (today ≤ a.created_at)

/-- The Alert record constructed at lines 93-101 for one candidate row. -/
def mkExpiryAlert (se : Settings) (today : Int) (row : Batch × Product × Branch) : Alert :=
  { batch_id := row.1.id
    branch_id := row.2.2.id
    alert_level := expiryAlertLevel se (row.1.expiry_date - today)
    alert_type := expiryAlertType se (row.1.expiry_date - today)
    message := expiryMessage se row.2.1 row.1 (row.1.expiry_date - today)
    days_to_expiry := some (row.1.expiry_date - today)
    status := "pending"
    created_at := today }

/-- The body of the per-candidate loop (lines 57-118).  The accumulator
carries the session's alert rows (committed plus autoflushed pending ones)
and the alerts_created and notifications_sent counters.  The dedup lookup
may raise MultipleResultsFound; a match skips the candidate; otherwise the
alert is added and the notification attempted, with a notification failure
caught and logged. -/
def processCandidate (se : Settings) (today : Int) (notify : Notify)
    (acc : List Alert × Nat × Nat) (row : Batch × Product × Branch) :
    Except Unit (List Alert × Nat × Nat) :=
  let b := row.1
  let p := row.2.1
  let br := row.2.2
  let days_remaining := b.expiry_date - today
  match scalarOneOrNone
      (acc.1.filter (expiryDedupMatch today b.id (expiryAlertType se days_remaining))) with
  | Except.error e => Except.error e
  | Except.ok (some _) => Except.ok acc
  | Except.ok none =>
    if notify br p b days_remaining (expiryAlertLevel se days_remaining) then
      Except.ok (acc.1 ++ [mkExpiryAlert se today row], acc.2.1 + 1, acc.2.2 + 1)
    else
      Except.ok (acc.1 ++ [mkExpiryAlert se today row], acc.2.1 + 1, acc.2.2)

/-- The for-loop over the candidate rows: an uncaught exception from a loop
body aborts the whole loop. -/
def runCandidates (se : Settings) (today : Int) (notify : Notify) :
    List (Batch × Product × Branch) → (List Alert × Nat × Nat) →
    Except Unit (List Alert × Nat × Nat)
  | [], acc => Except.ok acc
  | row :: rows, acc =>
    match processCandidate se today notify acc row with
    | Except.error e => Except.error e
    | Except.ok acc' => runCandidates se today notify rows acc'

/-- The WHERE clause of the expired-batch query at lines 121-130: is_active,
expiry_date on or before today, not yet expired. -/
def expireGuard (today : Int) (b : Batch) : Bool :=
  b.is_active && decide (b.expiry_date ≤ today) && !b.is_expired

/-- The per-batch transition of lines 135-138 applied to every batch row:
a selected batch becomes expired and inactive, any other row is unchanged. -/
def expireStep (today : Int) (b : Batch) : Batch :=
  if expireGuard today b then { b with is_expired := true, is_active := false } else b

/-- The body of check_expiring_batches up to the commit: the candidate loop
followed by the expired-batch transition pass.  An uncaught exception
anywhere produces the error result. -/
def expiryPass (se : Settings) (today : Int) (notify : Notify) (s : DBState) :
    Except Unit DBState :=
  match runCandidates se today notify (expiryCandidateRows se today s) (s.alerts, 0, 0) with
  | Except.error e => Except.error e
  | Except.ok acc =>
    Except.ok { s with alerts := acc.1, batches := s.batches.map (expireStep today) }

/-- app/tasks/expiry_checker.py, check_expiring_batches: on success the pass
is committed as one unit of work; on any exception the session is rolled
back, leaving the store unchanged (lines 140, 149-151). -/
def check_expiring_batches (se : Settings) (today : Int) (notify : Notify)
    (s : DBState) : DBState :=
  match expiryPass se today notify s with
  | Except.ok s' => s'
  | Except.error _ => s

/-- The local constant of check_low_stock, line 163. -/
def LOW_STOCK_THRESHOLD : Int := 5

/-- The WHERE clause of the low-stock candidate query (lines 169-175):
is_active, positive quantity, quantity at most the hardcoded threshold. -/
def isLowStockCandidate (b : Batch) : Bool :=
  b.is_active && decide (0 < b.current_quantity)
    && decide (b.current_quantity ≤ LOW_STOCK_THRESHOLD)

/-- The materialised low-stock candidate rows (line 178). -/
def lowStockRows (s : DBState) : List (Batch × Product × Branch) :=
  (s.batches.filter isLowStockCandidate).flatMap (joinPB s.products s.branches)

/-- The WHERE clause of the low-stock dedup query at lines 183-191: same
batch_id, alert_type low_stock, status pending — no created_at condition. -/
def lowStockDedupMatch (bid : Nat) (a : Alert) : Bool :=
  a.batch_id == bid && a.alert_type == "low_stock" && a.status == "pending"

/-- The rendered low-stock message of lines 196-199. -/
def lowStockMessage (p : Product) (b : Batch) : String :=
  "LOW STOCK: " ++ p.name ++ " (Batch: " ++ b.batch_number ++ ") has only "
    ++ toString b.current_quantity ++ " units remaining."

/-- The Alert record constructed at lines 202-209: level info, type
low_stock, status pending, no days_to_expiry. -/
def mkLowStockAlert (today : Int) (row : Batch × Product × Branch) : Alert :=
  { batch_id := row.1.id
    branch_id := row.2.2.id
    alert_level := "info"
    alert_type := "low_stock"
    message := lowStockMessage row.2.1 row.1
    days_to_expiry := none
    status := "pending"
    created_at := today }

/-- The body of the low-stock loop (lines 181-212): dedup lookup (which may
raise), skip on a match, otherwise insert; no notification call. -/
def processLowStock (today : Int) (acc : List Alert × Nat)
    (row : Batch × Product × Branch) : Except Unit (List Alert × Nat) :=
  match scalarOneOrNone (acc.1.filter (lowStockDedupMatch row.1.id)) with
  | Except.error e => Except.error e
  | Except.ok (some _) => Except.ok acc
  | Except.ok none => Except.ok (acc.1 ++ [mkLowStockAlert today row], acc.2 + 1)

/-- The for-loop over the low-stock rows. -/
def runLowStock (today : Int) :
    List (Batch × Product × Branch) → (List Alert × Nat) →
    Except Unit (List Alert × Nat)
  | [], acc => Except.ok acc
  | row :: rows, acc =>
    match processLowStock today acc row with
    | Except.error e => Except.error e
    | Except.ok acc' => runLowStock today rows acc'

/-- The body of check_low_stock up to the commit: the low-stock loop; no
batch mutation of any kind. -/
def lowStockPass (today : Int) (s : DBState) : Except Unit DBState :=
  match runLowStock today (lowStockRows s) (s.alerts, 0) with
  | Except.error e => Except.error e
  | Except.ok acc => Except.ok { s with alerts := acc.1 }

/-- app/tasks/expiry_checker.py, check_low_stock: commit on success,
rollback on any exception (lines 214, 218-220). -/
def check_low_stock (today : Int) (s : DBState) : DBState :=
  match lowStockPass today s with
  | Except.ok s' => s'
  | Except.error _ => s

/-- The urgency tier of a batch as the job's decision structure assigns it:
the expired pass selects expiry_date on or before today (lines 121-130);
the candidate window is expiry_date in (today, today + warning]
(lines 44-47); within the window, critical when days_remaining is at most
the critical threshold, warning otherwise (line 61); no tier outside. -/
inductive Tier where
  | none
  | warning
  | critical
  | expired
deriving DecidableEq

/-- The classification function of the expiry job, read off the queries and
branch of check_expiring_batches. -/
def classifyTier (se : Settings) (today expiry : Int) : Tier :=
  if expiry ≤ today then Tier.expired
  else if expiry ≤ today + se.EXPIRY_WARNING_DAYS then
    (if expiry - today ≤ se.EXPIRY_CRITICAL_DAYS then Tier.critical else Tier.warning)
  else Tier.none

/-- days_remaining as computed at line 58 (Python date subtraction). -/
def daysRemaining (today expiry : Int) : Int :=
  expiry - today

/-- Selection predicate of the low-stock job as the specification words it:
a configurable threshold t selects active batches with
0 < current_quantity <= t.  Spec-side definition, for comparison with the
source-side isLowStockCandidate. -/
def lowStockSelects_spec (t : Int) (b : Batch) : Bool :=
  b.is_active && decide (0 < b.current_quantity) && decide (b.current_quantity ≤ t)

/-- Number of alert rows matching the expiry dedup query for a given batch
id, alert type and day. -/
def dedupCount (alerts : List Alert) (today : Int) (bid : Nat) (atype : String) : Nat :=
  (alerts.filter (expiryDedupMatch today bid atype)).length

/-- Number of alert rows for a given batch id and alert type created on
exactly the given day. -/
def dayAlertCount (alerts : List Alert) (d : Int) (bid : Nat) (atype : String) : Nat :=
  (alerts.filter fun a => a.batch_id == bid && a.alert_type == atype
    && a.created_at == d).length

/-- Number of pending low-stock alert rows for a given batch id, i.e. rows
matching the low-stock dedup query. -/
def pendingLowStockCount (alerts : List Alert) (bid : Nat) : Nat :=
  (alerts.filter (lowStockDedupMatch bid)).length

/-- The store state left behind by a successful expiry pass: the freshly
inserted alerts appended to the alert table, every batch row through the
expired-batch transition. -/
def afterExpiry (today : Int) (s : DBState) (extra : List Alert) : DBState :=
  { s with alerts := s.alerts ++ extra, batches := s.batches.map (expireStep today) }

/-- A notification gateway whose every call succeeds. -/
def notifyOk : Notify := fun _ _ _ _ _ => true

/-- A notification gateway whose every call raises. -/
def notifyFail : Notify := fun _ _ _ _ _ => false

/-- A sample product row. -/
def product1 : Product := { id := 1, name := "Milk" }

/-- A sample branch row. -/
def branch1 : Branch := { id := 1, name := "Main" }

/-- A sample active, non-expired batch row of product1 at branch1 with the
given quantity and expiry day. -/
def mkBatchQ (q e : Int) : Batch :=
  { id := 1
    batch_number := "B1"
    product_id := 1
    branch_id := 1
    current_quantity := q
    expiry_date := e
    is_active := true
    is_expired := false }

/-- A one-batch store state with the given alert table. -/
def stateWith (b : Batch) (alerts : List Alert) : DBState :=
  { batches := [b], products := [product1], branches := [branch1], alerts := alerts }

/-- An alert row duplicating what the expiry job would create on day 0 for
mkBatchQ with expiry day 5 (type expiry_warning, created today). -/
def dupAlert : Alert :=
  { batch_id := 1
    branch_id := 1
    alert_level := "warning"
    alert_type := "expiry_warning"
    message := "m"
    days_to_expiry := some 5
    status := "pending"
    created_at := 0 }

theorem dedupCount_append (l1 l2 : List Alert) (today : Int) (bid : Nat) (t : String) :
    dedupCount (l1 ++ l2) today bid t = dedupCount l1 today bid t + dedupCount l2 today bid t := by
  simp [dedupCount, List.filter_append]

theorem dayAlertCount_append (l1 l2 : List Alert) (d : Int) (bid : Nat) (t : String) :
    dayAlertCount (l1 ++ l2) d bid t = dayAlertCount l1 d bid t + dayAlertCount l2 d bid t := by
  simp [dayAlertCount, List.filter_append]

theorem pendingLowStockCount_append (l1 l2 : List Alert) (bid : Nat) :
    pendingLowStockCount (l1 ++ l2) bid
      = pendingLowStockCount l1 bid + pendingLowStockCount l2 bid := by
  simp [pendingLowStockCount, List.filter_append]

theorem expiryDedupMatch_mkExpiryAlert (se : Settings) (today : Int)
    (row : Batch × Product × Branch) (bid : Nat) (t : String) :
    expiryDedupMatch today bid t (mkExpiryAlert se today row)
      = (row.1.id == bid && expiryAlertType se (row.1.expiry_date - today) == t) := by
  simp [expiryDedupMatch, mkExpiryAlert]

theorem dedupCount_mk (se : Settings) (today : Int) (row : Batch × Product × Branch)
    (bid : Nat) (t : String) :
    dedupCount [mkExpiryAlert se today row] today bid t
      = if (row.1.id == bid && expiryAlertType se (row.1.expiry_date - today) == t)
        then 1 else 0 := by
  rw [dedupCount]
  simp only [List.filter_cons, List.filter_nil, expiryDedupMatch_mkExpiryAlert]
  rcases hb : (row.1.id == bid && expiryAlertType se (row.1.expiry_date - today) == t) with _ | _
  · simp
  · simp

theorem lowStockDedupMatch_mk (today : Int) (row : Batch × Product × Branch) (bid : Nat) :
    lowStockDedupMatch bid (mkLowStockAlert today row) = (row.1.id == bid) := by
  simp [lowStockDedupMatch, mkLowStockAlert]

theorem pendingLowStockCount_mk (today : Int) (row : Batch × Product × Branch) (bid : Nat) :
    pendingLowStockCount [mkLowStockAlert today row] bid
      = if (row.1.id == bid) then 1 else 0 := by
  rw [pendingLowStockCount]
  simp only [List.filter_cons, List.filter_nil, lowStockDedupMatch_mk]
  rcases hb : (row.1.id == bid) with _ | _
  · simp
  · simp

theorem processCandidate_skip (se : Settings) (today : Int) (notify : Notify)
    (acc : List Alert × Nat × Nat) (row : Batch × Product × Branch)
    (h : dedupCount acc.1 today row.1.id (expiryAlertType se (row.1.expiry_date - today)) = 1) :
    processCandidate se today notify acc row = Except.ok acc := by
  obtain ⟨x, hx⟩ := List.length_eq_one.mp h
  simp [processCandidate, hx, scalarOneOrNone]

theorem processCandidate_create (se : Settings) (today : Int) (notify : Notify)
    (acc : List Alert × Nat × Nat) (row : Batch × Product × Branch)
    (h : dedupCount acc.1 today row.1.id (expiryAlertType se (row.1.expiry_date - today)) = 0) :
    ∃ n', processCandidate se today notify acc row
      = Except.ok (acc.1 ++ [mkExpiryAlert se today row], acc.2.1 + 1, n') := by
  have hx : acc.1.filter
      (expiryDedupMatch today row.1.id (expiryAlertType se (row.1.expiry_date - today))) = [] :=
    List.length_eq_zero.mp h
  by_cases hn : notify row.2.2 row.2.1 row.1 (row.1.expiry_date - today)
      (expiryAlertLevel se (row.1.expiry_date - today)) = true
  · exact ⟨acc.2.2 + 1, by simp [processCandidate, hx, scalarOneOrNone, hn]⟩
  · exact ⟨acc.2.2, by simp [processCandidate, hx, scalarOneOrNone, hn]⟩

theorem processCandidate_error (se : Settings) (today : Int) (notify : Notify)
    (acc : List Alert × Nat × Nat) (row : Batch × Product × Branch)
    (h : 2 ≤ dedupCount acc.1 today row.1.id (expiryAlertType se (row.1.expiry_date - today))) :
    processCandidate se today notify acc row = Except.error () := by
  rcases hl : acc.1.filter
      (expiryDedupMatch today row.1.id (expiryAlertType se (row.1.expiry_date - today)))
    with _ | ⟨x, xs⟩
  · rw [dedupCount, hl] at h; simp at h
  · rcases xs with _ | ⟨y, ys⟩
    · rw [dedupCount, hl] at h; simp at h
    · simp [processCandidate, hl, scalarOneOrNone]

theorem processCandidate_shape (se : Settings) (today : Int) (notify : Notify)
    (acc : List Alert × Nat × Nat) (row : Batch × Product × Branch)
    (acc' : List Alert × Nat × Nat)
    (h : processCandidate se today notify acc row = Except.ok acc') :
    acc'.1 = acc.1 ∨ acc'.1 = acc.1 ++ [mkExpiryAlert se today row] := by
  rcases hl : acc.1.filter
      (expiryDedupMatch today row.1.id (expiryAlertType se (row.1.expiry_date - today)))
    with _ | ⟨x, xs⟩
  · by_cases hn : notify row.2.2 row.2.1 row.1 (row.1.expiry_date - today)
        (expiryAlertLevel se (row.1.expiry_date - today)) = true
    · simp [processCandidate, hl, scalarOneOrNone, hn] at h
      right; rw [← h]
    · simp [processCandidate, hl, scalarOneOrNone, hn] at h
      right; rw [← h]
  · rcases xs with _ | ⟨y, ys⟩
    · simp [processCandidate, hl, scalarOneOrNone] at h
      left; rw [← h]
    · simp [processCandidate, hl, scalarOneOrNone] at h

theorem runCandidates_skip (se : Settings) (today : Int) (notify : Notify)
    (rows : List (Batch × Product × Branch)) :
    ∀ A c n, (∀ r ∈ rows,
        dedupCount A today r.1.id (expiryAlertType se (r.1.expiry_date - today)) = 1) →
    runCandidates se today notify rows (A, c, n) = Except.ok (A, c, n) := by
  induction rows with
  | nil => intro A c n _; rfl
  | cons r rows ih =>
    intro A c n h
    have h1 := h r (List.mem_cons_self r rows)
    have hstep := processCandidate_skip se today notify (A, c, n) r h1
    simp only [runCandidates, hstep]
    exact ih A c n (fun r' hr' => h r' (List.mem_cons_of_mem _ hr'))

theorem runCandidates_ok (se : Settings) (today : Int) (notify : Notify)
    (rows : List (Batch × Product × Branch)) :
    ∀ A c n, (∀ bid t, dedupCount A today bid t ≤ 1) →
    ∃ extra c' n',
      runCandidates se today notify rows (A, c, n) = Except.ok (A ++ extra, c', n')
      ∧ (∀ a ∈ extra, ∃ r ∈ rows, a = mkExpiryAlert se today r)
      ∧ (∀ bid t, dedupCount (A ++ extra) today bid t =
          if rows.any (fun r => r.1.id == bid
              && expiryAlertType se (r.1.expiry_date - today) == t)
          then max (dedupCount A today bid t) 1
          else dedupCount A today bid t) := by
  induction rows with
  | nil =>
    intro A c n _
    refine ⟨[], c, n, by simp [runCandidates], by simp, ?_⟩
    intro bid t
    simp
  | cons r rows ih =>
    intro A c n hinv
    have hr := hinv r.1.id (expiryAlertType se (r.1.expiry_date - today))
    rcases Nat.le_one_iff_eq_zero_or_eq_one.mp hr with h0 | h1
    · -- no alert for the head candidate yet: one is created
      obtain ⟨n1, hstep⟩ := processCandidate_create se today notify (A, c, n) r h0
      have hinv' : ∀ bid t,
          dedupCount (A ++ [mkExpiryAlert se today r]) today bid t ≤ 1 := by
        intro bid t
        rw [dedupCount_append, dedupCount_mk]
        rcases hb : (r.1.id == bid && expiryAlertType se (r.1.expiry_date - today) == t)
          with _ | _
        · simpa using hinv bid t
        · rw [Bool.and_eq_true, beq_iff_eq, beq_iff_eq] at hb
          obtain ⟨hb1, hb2⟩ := hb
          subst hb1; subst hb2
          simp [h0]
      obtain ⟨extra, c', n', hrun, hmem, hcount⟩ :=
        ih (A ++ [mkExpiryAlert se today r]) (c + 1) n1 hinv'
      refine ⟨mkExpiryAlert se today r :: extra, c', n', ?_, ?_, ?_⟩
      · simp only [runCandidates, hstep]
        rw [hrun]
        simp
      · intro a ha
        rcases List.mem_cons.mp ha with rfl | ha'
        · exact ⟨r, List.mem_cons_self r rows, rfl⟩
        · obtain ⟨r', hr', he⟩ := hmem a ha'
          exact ⟨r', List.mem_cons_of_mem _ hr', he⟩
      · intro bid t
        have hsplit : A ++ mkExpiryAlert se today r :: extra
            = (A ++ [mkExpiryAlert se today r]) ++ extra := by simp
        rw [hsplit, hcount bid t]
        cases hb : (r.1.id == bid && expiryAlertType se (r.1.expiry_date - today) == t) with
        | false =>
          have hA1 : dedupCount (A ++ [mkExpiryAlert se today r]) today bid t
              = dedupCount A today bid t := by
            rw [dedupCount_append, dedupCount_mk, hb]; simp
          rw [hA1, List.any_cons]
          simp only [hb, Bool.false_or]
        | true =>
          rw [Bool.and_eq_true, beq_iff_eq, beq_iff_eq] at hb
          obtain ⟨hb1, hb2⟩ := hb
          subst hb1; subst hb2
          have hA1 : dedupCount (A ++ [mkExpiryAlert se today r]) today r.1.id
              (expiryAlertType se (r.1.expiry_date - today)) = 1 := by
            rw [dedupCount_append, dedupCount_mk, h0]; simp
          rw [hA1, List.any_cons, h0]
          simp only [beq_self_eq_true, Bool.and_self, Bool.true_or, if_true]
          cases hany : (rows.any fun r' => r'.1.id == r.1.id
              && expiryAlertType se (r'.1.expiry_date - today)
                == expiryAlertType se (r.1.expiry_date - today)) with
          | false => simp [hany]
          | true => simp [hany]
    · -- an alert for the head candidate already exists: skipped
      have hstep := processCandidate_skip se today notify (A, c, n) r h1
      obtain ⟨extra, c', n', hrun, hmem, hcount⟩ := ih A c n hinv
      refine ⟨extra, c', n', ?_, ?_, ?_⟩
      · simp only [runCandidates, hstep]
        exact hrun
      · intro a ha
        obtain ⟨r', hr', he⟩ := hmem a ha
        exact ⟨r', List.mem_cons_of_mem _ hr', he⟩
      · intro bid t
        rw [hcount bid t, List.any_cons]
        cases hb : (r.1.id == bid && expiryAlertType se (r.1.expiry_date - today) == t) with
        | false => simp only [hb, Bool.false_or]
        | true =>
          rw [Bool.and_eq_true, beq_iff_eq, beq_iff_eq] at hb
          obtain ⟨hb1, hb2⟩ := hb
          subst hb1; subst hb2
          rw [h1]
          simp only [beq_self_eq_true, Bool.and_self, Bool.true_or, if_true]
          cases hany : (rows.any fun r' => r'.1.id == r.1.id
              && expiryAlertType se (r'.1.expiry_date - today)
                == expiryAlertType se (r.1.expiry_date - today)) with
          | false => simp [hany]
          | true => simp [hany]

theorem runCandidates_extends (se : Settings) (today : Int) (notify : Notify)
    (rows : List (Batch × Product × Branch)) :
    ∀ A c n res, runCandidates se today notify rows (A, c, n) = Except.ok res →
    ∃ extra, res.1 = A ++ extra
      ∧ ∀ a ∈ extra, ∃ r ∈ rows, a = mkExpiryAlert se today r := by
  induction rows with
  | nil =>
    intro A c n res h
    simp only [runCandidates] at h
    cases h
    exact ⟨[], by simp, by simp⟩
  | cons r rows ih =>
    intro A c n res h
    cases hstep : processCandidate se today notify (A, c, n) r with
    | error e =>
      simp [runCandidates, hstep] at h
    | ok acc' =>
      obtain ⟨A', c', n'⟩ := acc'
      simp only [runCandidates, hstep] at h
      obtain ⟨extra, he, hmem⟩ := ih A' c' n' res h
      have hshape : A' = A ∨ A' = A ++ [mkExpiryAlert se today r] :=
        processCandidate_shape se today notify (A, c, n) r (A', c', n') hstep
      rcases hshape with h1 | h1
      · refine ⟨extra, by rw [he, h1], ?_⟩
        intro a ha
        obtain ⟨r', hr', hee⟩ := hmem a ha
        exact ⟨r', List.mem_cons_of_mem _ hr', hee⟩
      · refine ⟨mkExpiryAlert se today r :: extra, ?_, ?_⟩
        · rw [he, h1]; simp
        · intro a ha
          rcases List.mem_cons.mp ha with rfl | ha'
          · exact ⟨r, List.mem_cons_self r rows, rfl⟩
          · obtain ⟨r', hr', hee⟩ := hmem a ha'
            exact ⟨r', List.mem_cons_of_mem _ hr', hee⟩

theorem runCandidates_error (se : Settings) (today : Int) (notify : Notify)
    (rows : List (Batch × Product × Branch)) :
    ∀ A c n r, r ∈ rows →
      2 ≤ dedupCount A today r.1.id (expiryAlertType se (r.1.expiry_date - today)) →
      runCandidates se today notify rows (A, c, n) = Except.error () := by
  induction rows with
  | nil => intro A c n r hr; cases hr
  | cons r0 rows ih =>
    intro A c n r hr h2
    rcases List.mem_cons.mp hr with rfl | hr'
    · have hstep := processCandidate_error se today notify (A, c, n) r h2
      simp [runCandidates, hstep]
    · cases hstep : processCandidate se today notify (A, c, n) r0 with
      | error e =>
        cases e
        simp [runCandidates, hstep]
      | ok acc' =>
        obtain ⟨A', c', n'⟩ := acc'
        simp only [runCandidates, hstep]
        have hshape : A' = A ∨ A' = A ++ [mkExpiryAlert se today r0] :=
          processCandidate_shape se today notify (A, c, n) r0 (A', c', n') hstep
        have hmono : 2 ≤ dedupCount A' today r.1.id
            (expiryAlertType se (r.1.expiry_date - today)) := by
          rcases hshape with h1 | h1
          · rw [h1]; exact h2
          · rw [h1, dedupCount_append]; omega
        exact ih A' c' n' r hr' hmono

theorem processLowStock_skip (today : Int) (acc : List Alert × Nat)
    (row : Batch × Product × Branch)
    (h : pendingLowStockCount acc.1 row.1.id = 1) :
    processLowStock today acc row = Except.ok acc := by
  obtain ⟨x, hx⟩ := List.length_eq_one.mp h
  simp [processLowStock, hx, scalarOneOrNone]

theorem processLowStock_create (today : Int) (acc : List Alert × Nat)
    (row : Batch × Product × Branch)
    (h : pendingLowStockCount acc.1 row.1.id = 0) :
    processLowStock today acc row
      = Except.ok (acc.1 ++ [mkLowStockAlert today row], acc.2 + 1) := by
  have hx : acc.1.filter (lowStockDedupMatch row.1.id) = [] := List.length_eq_zero.mp h
  simp [processLowStock, hx, scalarOneOrNone]

theorem runLowStock_ok (today : Int) (rows : List (Batch × Product × Branch)) :
    ∀ A c, (∀ bid, pendingLowStockCount A bid ≤ 1) →
    ∃ extra c',
      runLowStock today rows (A, c) = Except.ok (A ++ extra, c')
      ∧ (∀ a ∈ extra, (∃ r ∈ rows, a = mkLowStockAlert today r)
          ∧ pendingLowStockCount A a.batch_id = 0)
      ∧ (∀ bid, pendingLowStockCount (A ++ extra) bid =
          if rows.any (fun r => r.1.id == bid)
          then max (pendingLowStockCount A bid) 1
          else pendingLowStockCount A bid) := by
  induction rows with
  | nil =>
    intro A c _
    refine ⟨[], c, by simp [runLowStock], by simp, ?_⟩
    intro bid
    simp
  | cons r rows ih =>
    intro A c hinv
    have hr := hinv r.1.id
    rcases Nat.le_one_iff_eq_zero_or_eq_one.mp hr with h0 | h1
    · -- no pending low-stock alert for the head candidate yet: one is created
      have hstep := processLowStock_create today (A, c) r h0
      have hinv' : ∀ bid, pendingLowStockCount (A ++ [mkLowStockAlert today r]) bid ≤ 1 := by
        intro bid
        rw [pendingLowStockCount_append, pendingLowStockCount_mk]
        cases hb : (r.1.id == bid) with
        | false => simpa using hinv bid
        | true =>
          rw [beq_iff_eq] at hb
          subst hb
          simp [h0]
      obtain ⟨extra, c', hrun, hmem, hcount⟩ := ih (A ++ [mkLowStockAlert today r]) (c + 1) hinv'
      refine ⟨mkLowStockAlert today r :: extra, c', ?_, ?_, ?_⟩
      · simp only [runLowStock, hstep]
        rw [hrun]
        simp
      · intro a ha
        rcases List.mem_cons.mp ha with rfl | ha'
        · exact ⟨⟨r, List.mem_cons_self r rows, rfl⟩, h0⟩
        · obtain ⟨⟨r', hr', he⟩, hz⟩ := hmem a ha'
          refine ⟨⟨r', List.mem_cons_of_mem _ hr', he⟩, ?_⟩
          rw [pendingLowStockCount_append] at hz
          omega
      · intro bid
        have hsplit : A ++ mkLowStockAlert today r :: extra
            = (A ++ [mkLowStockAlert today r]) ++ extra := by simp
        rw [hsplit, hcount bid, List.any_cons]
        cases hb : (r.1.id == bid) with
        | false =>
          have hA1 : pendingLowStockCount (A ++ [mkLowStockAlert today r]) bid
              = pendingLowStockCount A bid := by
            rw [pendingLowStockCount_append, pendingLowStockCount_mk, hb]; simp
          rw [hA1]
          simp only [hb, Bool.false_or]
        | true =>
          rw [beq_iff_eq] at hb
          subst hb
          have hA1 : pendingLowStockCount (A ++ [mkLowStockAlert today r]) r.1.id = 1 := by
            rw [pendingLowStockCount_append, pendingLowStockCount_mk, h0]; simp
          rw [hA1, h0]
          simp only [beq_self_eq_true, Bool.true_or, if_true]
          cases hany : (rows.any fun r' => r'.1.id == r.1.id) with
          | false => simp [hany]
          | true => simp [hany]
    · -- a pending low-stock alert already exists: skipped
      have hstep := processLowStock_skip today (A, c) r h1
      obtain ⟨extra, c', hrun, hmem, hcount⟩ := ih A c hinv
      refine ⟨extra, c', ?_, ?_, ?_⟩
      · simp only [runLowStock, hstep]
        exact hrun
      · intro a ha
        obtain ⟨⟨r', hr', he⟩, hz⟩ := hmem a ha
        exact ⟨⟨r', List.mem_cons_of_mem _ hr', he⟩, hz⟩
      · intro bid
        rw [hcount bid, List.any_cons]
        cases hb : (r.1.id == bid) with
        | false => simp only [hb, Bool.false_or]
        | true =>
          rw [beq_iff_eq] at hb
          subst hb
          rw [h1]
          simp only [beq_self_eq_true, Bool.true_or, if_true]
          cases hany : (rows.any fun r' => r'.1.id == r.1.id) with
          | false => simp [hany]
          | true => simp [hany]

theorem expireGuard_false_of_candidate (se : Settings) (today : Int) (b : Batch)
    (h : isExpiryCandidate se today b = true) :
    expireGuard today b = false := by
  have hlt : ¬ (b.expiry_date ≤ today) := by
    simp only [isExpiryCandidate, Bool.and_eq_true, decide_eq_true_eq] at h
    omega
  simp [expireGuard, hlt]

theorem expireStep_eq_of_candidate (se : Settings) (today : Int) (b : Batch)
    (h : isExpiryCandidate se today b = true) :
    expireStep today b = b := by
  simp [expireStep, expireGuard_false_of_candidate se today b h]

theorem isExpiryCandidate_expireStep (se : Settings) (today : Int) (b : Batch) :
    isExpiryCandidate se today (expireStep today b) = isExpiryCandidate se today b := by
  by_cases hg : expireGuard today b = true
  · have hle : b.expiry_date ≤ today := by
      simp only [expireGuard, Bool.and_eq_true, decide_eq_true_eq] at hg
      exact hg.1.2
    have h2 : ¬ (today < b.expiry_date) := by omega
    rw [expireStep, if_pos hg]
    simp [isExpiryCandidate, h2]
  · rw [expireStep, if_neg hg]

theorem expireStep_idem (today : Int) (b : Batch) :
    expireStep today (expireStep today b) = expireStep today b := by
  by_cases hg : expireGuard today b = true
  · have hb1 : expireStep today b = { b with is_expired := true, is_active := false } := by
      rw [expireStep, if_pos hg]
    have hg2 : expireGuard today { b with is_expired := true, is_active := false } = false := by
      simp [expireGuard]
    rw [hb1]
    simp [expireStep, hg2]
  · have hb1 : expireStep today b = b := by
      rw [expireStep, if_neg hg]
    rw [hb1, hb1]

theorem map_expireStep_idem (today : Int) (l : List Batch) :
    (l.map (expireStep today)).map (expireStep today) = l.map (expireStep today) := by
  rw [List.map_map]
  exact List.map_congr_left (fun b _ => expireStep_idem today b)

theorem filter_candidate_map_expireStep (se : Settings) (today : Int) (l : List Batch) :
    (l.map (expireStep today)).filter (isExpiryCandidate se today)
      = l.filter (isExpiryCandidate se today) := by
  induction l with
  | nil => rfl
  | cons b l ih =>
    rw [List.map_cons, List.filter_cons, List.filter_cons, isExpiryCandidate_expireStep]
    cases hc : isExpiryCandidate se today b with
    | false => simpa using ih
    | true =>
      rw [expireStep_eq_of_candidate se today b hc]
      simpa using ih

theorem expiryCandidateRows_update (se : Settings) (today : Int) (s : DBState)
    (A : List Alert) :
    expiryCandidateRows se today
        { s with alerts := A, batches := s.batches.map (expireStep today) }
      = expiryCandidateRows se today s := by
  simp [expiryCandidateRows, filter_candidate_map_expireStep]

theorem expiryPass_ok (se : Settings) (today : Int) (notify : Notify) (s : DBState)
    (hinv : ∀ bid t, dedupCount s.alerts today bid t ≤ 1) :
    ∃ extra,
      expiryPass se today notify s = Except.ok (afterExpiry today s extra)
      ∧ check_expiring_batches se today notify s = afterExpiry today s extra
      ∧ (∀ a ∈ extra, ∃ r ∈ expiryCandidateRows se today s, a = mkExpiryAlert se today r)
      ∧ (∀ bid t, dedupCount (s.alerts ++ extra) today bid t =
            if (expiryCandidateRows se today s).any (fun r => r.1.id == bid
                && expiryAlertType se (r.1.expiry_date - today) == t)
            then max (dedupCount s.alerts today bid t) 1
            else dedupCount s.alerts today bid t) := by
  obtain ⟨extra, c', n', hrun, hmem, hcount⟩ :=
    runCandidates_ok se today notify (expiryCandidateRows se today s) s.alerts 0 0 hinv
  refine ⟨extra, ?_, ?_, hmem, hcount⟩
  · simp only [expiryPass, hrun, afterExpiry]
  · simp only [check_expiring_batches, expiryPass, hrun, afterExpiry]

theorem expiryCandidateRows_afterExpiry (se : Settings) (today : Int) (s : DBState)
    (extra : List Alert) :
    expiryCandidateRows se today (afterExpiry today s extra)
      = expiryCandidateRows se today s := by
  rw [afterExpiry]
  exact expiryCandidateRows_update se today s (s.alerts ++ extra)

theorem check_expiring_batches_idem (se : Settings) (today : Int) (n1 n2 : Notify)
    (s : DBState)
    (hinv : ∀ bid t, dedupCount s.alerts today bid t ≤ 1) :
    check_expiring_batches se today n2 (check_expiring_batches se today n1 s)
      = check_expiring_batches se today n1 s := by
  obtain ⟨extra, hpass, hcheck, hmem, hcount⟩ := expiryPass_ok se today n1 s hinv
  have hall : ∀ r ∈ expiryCandidateRows se today s,
      dedupCount (s.alerts ++ extra) today r.1.id
        (expiryAlertType se (r.1.expiry_date - today)) = 1 := by
    intro r hrow
    rw [hcount r.1.id (expiryAlertType se (r.1.expiry_date - today))]
    have hany : (expiryCandidateRows se today s).any (fun r' => r'.1.id == r.1.id
        && expiryAlertType se (r'.1.expiry_date - today)
          == expiryAlertType se (r.1.expiry_date - today)) = true :=
      List.any_eq_true.mpr ⟨r, hrow, by simp⟩
    rw [hany, if_pos rfl]
    have := hinv r.1.id (expiryAlertType se (r.1.expiry_date - today))
    omega
  have hskip := runCandidates_skip se today n2 (expiryCandidateRows se today s)
    (s.alerts ++ extra) 0 0 hall
  rw [hcheck]
  have hrows := expiryCandidateRows_afterExpiry se today s extra
  have halerts : (afterExpiry today s extra).alerts = s.alerts ++ extra := rfl
  simp only [check_expiring_batches, expiryPass, hrows, halerts, hskip]
  have hbatches : (afterExpiry today s extra).batches.map (expireStep today)
      = (afterExpiry today s extra).batches := by
    show (s.batches.map (expireStep today)).map (expireStep today)
      = s.batches.map (expireStep today)
    exact map_expireStep_idem today s.batches
  simp only [hbatches]
  rw [← halerts]

theorem expireStep_transitions (today : Int) (b : Batch) (ha : b.is_active = true)
    (he : b.is_expired = false) (hd : b.expiry_date ≤ today) :
    (expireStep today b).is_expired = true ∧ (expireStep today b).is_active = false := by
  have hg : expireGuard today b = true := by simp [expireGuard, ha, he, hd]
  rw [expireStep, if_pos hg]
  exact ⟨rfl, rfl⟩

theorem expireStep_invariant (today : Int) (b : Batch)
    (h : b.is_expired = true → b.is_active = false) :
    (expireStep today b).is_expired = true → (expireStep today b).is_active = false := by
  by_cases hg : expireGuard today b = true
  · rw [expireStep, if_pos hg]
    intro _
    rfl
  · rw [expireStep, if_neg hg]
    exact h

theorem expireStep_of_expired (today : Int) (b : Batch) (h : b.is_expired = true) :
    expireGuard today b = false ∧ expireStep today b = b := by
  have hg : expireGuard today b = false := by simp [expireGuard, h]
  refine ⟨hg, ?_⟩
  rw [expireStep, hg]
  rfl

theorem dedupCount_eq_zero_of_lt (A : List Alert) (d : Int) (bid : Nat) (t : String)
    (h : ∀ a ∈ A, a.created_at < d) : dedupCount A d bid t = 0 := by
  rw [dedupCount, List.length_eq_zero]
  rw [List.filter_eq_nil_iff]
  intro a ha
  have hlt := h a ha
  simp only [expiryDedupMatch, Bool.and_eq_true, beq_iff_eq, decide_eq_true_eq, not_and]
  intro _ _
  omega

theorem dayAlertCount_eq_zero_of_ne (A : List Alert) (d : Int) (bid : Nat) (t : String)
    (h : ∀ a ∈ A, a.created_at ≠ d) : dayAlertCount A d bid t = 0 := by
  rw [dayAlertCount, List.length_eq_zero]
  rw [List.filter_eq_nil_iff]
  intro a ha
  have hne := h a ha
  simp only [Bool.and_eq_true, beq_iff_eq, not_and]
  intro _
  exact hne

theorem dayAlertCount_eq_dedupCount (A : List Alert) (d : Int) (bid : Nat) (t : String)
    (h : ∀ a ∈ A, a.created_at = d) :
    dayAlertCount A d bid t = dedupCount A d bid t := by
  rw [dayAlertCount, dedupCount]
  congr 1
  apply List.filter_congr
  intro a ha
  have heq := h a ha
  simp [expiryDedupMatch, heq]

theorem mem_expiryCandidateRows (se : Settings) (today : Int) (s : DBState)
    (r : Batch × Product × Branch) (h : r ∈ expiryCandidateRows se today s) :
    r.1 ∈ s.batches ∧ isExpiryCandidate se today r.1 = true := by
  simp only [expiryCandidateRows, List.mem_flatMap, List.mem_filter] at h
  obtain ⟨b, ⟨hb, hc⟩, hj⟩ := h
  simp only [joinPB, List.mem_flatMap, List.mem_map, List.mem_filter] at hj
  obtain ⟨p, _, br, _, heq⟩ := hj
  rw [← heq]
  exact ⟨hb, hc⟩

theorem mem_lowStockRows (s : DBState) (r : Batch × Product × Branch)
    (h : r ∈ lowStockRows s) :
    r.1 ∈ s.batches ∧ isLowStockCandidate r.1 = true := by
  simp only [lowStockRows, List.mem_flatMap, List.mem_filter] at h
  obtain ⟨b, ⟨hb, hc⟩, hj⟩ := h
  simp only [joinPB, List.mem_flatMap, List.mem_map, List.mem_filter] at hj
  obtain ⟨p, _, br, _, heq⟩ := hj
  rw [← heq]
  exact ⟨hb, hc⟩

theorem runCandidates_notify_irrelevant (se : Settings) (today : Int) (n n' : Notify)
    (rows : List (Batch × Product × Branch)) :
    ∀ A c x y,
      (runCandidates se today n rows (A, c, x)).map (fun acc => (acc.1, acc.2.1))
        = (runCandidates se today n' rows (A, c, y)).map (fun acc => (acc.1, acc.2.1)) := by
  induction rows with
  | nil => intro A c x y; rfl
  | cons r rows ih =>
    intro A c x y
    rcases hl : A.filter
        (expiryDedupMatch today r.1.id (expiryAlertType se (r.1.expiry_date - today)))
      with _ | ⟨a, as⟩
    · have hs1 : ∀ nf : Notify, ∃ z, processCandidate se today nf (A, c, x) r
          = Except.ok (A ++ [mkExpiryAlert se today r], c + 1, z) ∧
          ∃ z', processCandidate se today nf (A, c, y) r
          = Except.ok (A ++ [mkExpiryAlert se today r], c + 1, z') := by
        intro nf
        by_cases hn : nf r.2.2 r.2.1 r.1 (r.1.expiry_date - today)
            (expiryAlertLevel se (r.1.expiry_date - today)) = true
        · exact ⟨x + 1, by simp [processCandidate, hl, scalarOneOrNone, hn],
            y + 1, by simp [processCandidate, hl, scalarOneOrNone, hn]⟩
        · exact ⟨x, by simp [processCandidate, hl, scalarOneOrNone, hn],
            y, by simp [processCandidate, hl, scalarOneOrNone, hn]⟩
      obtain ⟨z1, hz1, _, _⟩ := hs1 n
      obtain ⟨_, _, z2, hz2⟩ := hs1 n'
      simp only [runCandidates, hz1, hz2]
      exact ih (A ++ [mkExpiryAlert se today r]) (c + 1) z1 z2
    · rcases as with _ | ⟨a2, as2⟩
      · have hz1 : processCandidate se today n (A, c, x) r = Except.ok (A, c, x) := by
          simp [processCandidate, hl, scalarOneOrNone]
        have hz2 : processCandidate se today n' (A, c, y) r = Except.ok (A, c, y) := by
          simp [processCandidate, hl, scalarOneOrNone]
        simp only [runCandidates, hz1, hz2]
        exact ih A c x y
      · have hz1 : processCandidate se today n (A, c, x) r = Except.error () := by
          simp [processCandidate, hl, scalarOneOrNone]
        have hz2 : processCandidate se today n' (A, c, y) r = Except.error () := by
          simp [processCandidate, hl, scalarOneOrNone]
        simp only [runCandidates, hz1, hz2]

theorem expiryAlertType_spec (se : Settings) (d : Int) :
    (expiryAlertType se d = "expiry_critical" ↔ d ≤ se.EXPIRY_CRITICAL_DAYS)
    ∧ (expiryAlertType se d = "expiry_warning" ↔ se.EXPIRY_CRITICAL_DAYS < d) := by
  have hne : ("expiry_warning" : String) ≠ "expiry_critical" := by decide
  have hne' : ("expiry_critical" : String) ≠ "expiry_warning" := by decide
  rw [expiryAlertType]
  split_ifs with h
  · refine ⟨by simp [h], ?_⟩
    constructor
    · intro hc
      exact absurd hc hne'
    · intro hlt
      omega
  · refine ⟨?_, by simp; omega⟩
    constructor
    · intro hc
      exact absurd hc hne
    · intro hle
      omega

theorem classifyTier_iff (se : Settings) (today expiry : Int)
    (hcw : se.EXPIRY_CRITICAL_DAYS < se.EXPIRY_WARNING_DAYS) :
    (classifyTier se today expiry = Tier.expired ↔ expiry ≤ today)
    ∧ (classifyTier se today expiry = Tier.critical
        ↔ (today < expiry ∧ expiry ≤ today + se.EXPIRY_CRITICAL_DAYS))
    ∧ (classifyTier se today expiry = Tier.warning
        ↔ (today < expiry ∧ today + se.EXPIRY_CRITICAL_DAYS < expiry
            ∧ expiry ≤ today + se.EXPIRY_WARNING_DAYS))
    ∧ (classifyTier se today expiry = Tier.none
        ↔ (today < expiry ∧ today + se.EXPIRY_WARNING_DAYS < expiry)) := by
  refine ⟨?_, ?_, ?_, ?_⟩ <;>
    (rw [classifyTier]; split_ifs with h1 h2 h3 <;> simp <;> omega)

/-- C2: with configured thresholds warning_days and critical_days satisfying
critical_days < warning_days, the classification used by the expiry job
assigns expired when expiry_date is on or before today, critical on
(today, today + critical_days], warning on
(today + critical_days, today + warning_days], and none otherwise, with
days_remaining = expiry_date - today; the alert type of a candidate batch is
expiry_critical exactly on the critical tier and expiry_warning exactly on
the warning tier; and on the concrete example today = 2024-06-10 with the
default thresholds (5, 1), expiry 2024-06-11 is critical with
days_remaining = 1, expiry 2024-06-15 is warning, and expiry 2024-06-09 is
expired. -/
theorem C2_expiry_classifier (today expiry cd wd : Int) (h : cd < wd) :
    (classifyTier (mkSettings wd cd) today expiry = Tier.expired ↔ expiry ≤ today)
    ∧ (classifyTier (mkSettings wd cd) today expiry = Tier.critical
        ↔ (today < expiry ∧ expiry ≤ today + cd))
    ∧ (classifyTier (mkSettings wd cd) today expiry = Tier.warning
        ↔ (today < expiry ∧ today + cd < expiry ∧ expiry ≤ today + wd))
    ∧ (classifyTier (mkSettings wd cd) today expiry = Tier.none
        ↔ (today < expiry ∧ today + wd < expiry))
    ∧ daysRemaining today expiry = expiry - today
    ∧ (∀ b : Batch, isExpiryCandidate (mkSettings wd cd) today b = true →
        ((expiryAlertType (mkSettings wd cd) (b.expiry_date - today) = "expiry_critical"
            ↔ classifyTier (mkSettings wd cd) today b.expiry_date = Tier.critical)
          ∧ (expiryAlertType (mkSettings wd cd) (b.expiry_date - today) = "expiry_warning"
            ↔ classifyTier (mkSettings wd cd) today b.expiry_date = Tier.warning)))
    ∧ classifyTier defaultSettings (daysFromCivil 2024 6 10) (daysFromCivil 2024 6 11)
        = Tier.critical
    ∧ daysRemaining (daysFromCivil 2024 6 10) (daysFromCivil 2024 6 11) = 1
    ∧ classifyTier defaultSettings (daysFromCivil 2024 6 10) (daysFromCivil 2024 6 15)
        = Tier.warning
    ∧ classifyTier defaultSettings (daysFromCivil 2024 6 10) (daysFromCivil 2024 6 9)
        = Tier.expired := by
  obtain ⟨he, hc, hw, hn⟩ := classifyTier_iff (mkSettings wd cd) today expiry h
  refine ⟨he, hc, hw, hn, rfl, ?_, by decide, by decide, by decide, by decide⟩
  intro b hcand
  simp only [isExpiryCandidate, Bool.and_eq_true, decide_eq_true_eq] at hcand
  obtain ⟨⟨⟨hact, hlt⟩, hle⟩, hq⟩ := hcand
  obtain ⟨ht1, ht2⟩ := expiryAlertType_spec (mkSettings wd cd) (b.expiry_date - today)
  obtain ⟨_, hc', hw', _⟩ := classifyTier_iff (mkSettings wd cd) today b.expiry_date h
  constructor
  · rw [ht1, hc']
    constructor
    · intro hd
      refine ⟨hlt, ?_⟩
      omega
    · intro ⟨_, hd⟩
      omega
  · rw [ht2, hw']
    constructor
    · intro hd
      refine ⟨hlt, by omega, hle⟩
    · intro ⟨_, hd, _⟩
      omega

/-- Witness for C2 at concrete inputs: thresholds (5, 1), today 0,
expiry 1. -/
theorem C2_expiry_classifier_witness :
    (1 : Int) < 5
    ∧ (classifyTier (mkSettings 5 1) 0 1 = Tier.critical
        ↔ ((0 : Int) < 1 ∧ (1 : Int) ≤ 0 + 1)) :=
  ⟨by decide, (C2_expiry_classifier 0 1 1 5 (by decide)).2.1⟩

/-- C4: one invocation of the expiry job is a single unit of work: either
the whole pass succeeds and the committed state is exactly the pass's
result, or the pass fails and the rolled-back state is exactly the input
state — never a partial alert set or partial batch transition. -/
theorem C4_single_unit_of_work (se : Settings) (today : Int) (notify : Notify)
    (s : DBState) :
    (∃ s', expiryPass se today notify s = Except.ok s'
        ∧ check_expiring_batches se today notify s = s')
    ∨ (expiryPass se today notify s = Except.error ()
        ∧ check_expiring_batches se today notify s = s) := by
  cases h : expiryPass se today notify s with
  | ok s' =>
    exact Or.inl ⟨s', rfl, by simp [check_expiring_batches, h]⟩
  | error e =>
    cases e
    exact Or.inr ⟨rfl, by simp [check_expiring_batches, h]⟩

/-- C5: the outcome of the expiry job on the store state is independent of
the notification gateway: a failing notification neither prevents the
alert's persistence nor stops processing of the remaining candidates. -/
theorem C5_notification_isolation (se : Settings) (today : Int) (n n' : Notify)
    (s : DBState) :
    check_expiring_batches se today n s = check_expiring_batches se today n' s := by
  have h := runCandidates_notify_irrelevant se today n n'
    (expiryCandidateRows se today s) s.alerts 0 0 0
  cases h1 : runCandidates se today n (expiryCandidateRows se today s) (s.alerts, 0, 0) with
  | error e =>
    cases h2 : runCandidates se today n' (expiryCandidateRows se today s)
        (s.alerts, 0, 0) with
    | error e' =>
      cases e
      cases e'
      simp only [check_expiring_batches, expiryPass, h1, h2]
    | ok acc =>
      rw [h1, h2] at h
      simp [Except.map] at h
  | ok acc =>
    cases h2 : runCandidates se today n' (expiryCandidateRows se today s)
        (s.alerts, 0, 0) with
    | error e' =>
      rw [h1, h2] at h
      simp [Except.map] at h
    | ok acc' =>
      rw [h1, h2] at h
      simp only [Except.map, Except.ok.injEq, Prod.mk.injEq] at h
      simp only [check_expiring_batches, expiryPass, h1, h2, h.1]

/-- C10: if the alert table already holds two or more rows matching the
dedup query of some candidate (same batch_id, same tier-derived alert_type,
created on or after today), the pass raises at scalar_one_or_none instead
of skipping, and the whole invocation is rolled back: no alert is created
and no batch is transitioned. -/
theorem C10_duplicate_rows_abort (se : Settings) (today : Int) (notify : Notify)
    (s : DBState) (b : Batch) (p : Product) (br : Branch)
    (hmem : (b, p, br) ∈ expiryCandidateRows se today s)
    (hdup : 2 ≤ dedupCount s.alerts today b.id
      (expiryAlertType se (b.expiry_date - today))) :
    expiryPass se today notify s = Except.error ()
    ∧ check_expiring_batches se today notify s = s := by
  have herr := runCandidates_error se today notify (expiryCandidateRows se today s)
    s.alerts 0 0 (b, p, br) hmem hdup
  refine ⟨by simp only [expiryPass, herr],
    by simp only [check_expiring_batches, expiryPass, herr]⟩

/-- Witness for C10: a one-batch state whose alert table contains the same
warning alert twice; the invocation leaves the state untouched. -/
theorem C10_duplicate_rows_abort_witness :
    ((mkBatchQ 10 5, product1, branch1) ∈ expiryCandidateRows defaultSettings 0
        (stateWith (mkBatchQ 10 5) [dupAlert, dupAlert]))
    ∧ 2 ≤ dedupCount (stateWith (mkBatchQ 10 5) [dupAlert, dupAlert]).alerts 0
        (mkBatchQ 10 5).id (expiryAlertType defaultSettings ((mkBatchQ 10 5).expiry_date - 0))
    ∧ check_expiring_batches defaultSettings 0 notifyOk
        (stateWith (mkBatchQ 10 5) [dupAlert, dupAlert])
      = stateWith (mkBatchQ 10 5) [dupAlert, dupAlert] :=
  ⟨by decide, by decide,
    (C10_duplicate_rows_abort defaultSettings 0 notifyOk
      (stateWith (mkBatchQ 10 5) [dupAlert, dupAlert]) (mkBatchQ 10 5) product1 branch1
      (by decide) (by decide)).2⟩

/-- C7 counterexample: the configuration critical_days = 5,
warning_days = 5 violates critical_days < warning_days, yet it is accepted
(config.py has no validator and the startup path performs no check) and the
expiry job runs with it and creates an alert — the system does not reject
the configuration at startup. -/
theorem C7_counterexample :
    configAccepts 5 5 = true
    ∧ check_expiring_batches (mkSettings 5 5) 0 notifyOk (stateWith (mkBatchQ 10 3) [])
        ≠ stateWith (mkBatchQ 10 3) []
    ∧ (check_expiring_batches (mkSettings 5 5) 0 notifyOk
        (stateWith (mkBatchQ 10 3) [])).alerts.length = 1 := by
  refine ⟨rfl, by decide, by decide⟩

/-- C7 amended: the code performs no threshold validation — every pair of
integer thresholds is accepted at startup; the shipped defaults do satisfy
critical_days < warning_days (1 < 5); and when a configuration with
warning_days <= critical_days is used, the job still runs and classifies
every candidate in the window as critical (it does not reorder thresholds
and does not reject). -/
theorem C7_no_threshold_validation (w c : Int) (hc : w ≤ c) (b : Batch) (today : Int) :
    configAccepts w c = true
    ∧ defaultSettings.EXPIRY_CRITICAL_DAYS < defaultSettings.EXPIRY_WARNING_DAYS
    ∧ (isExpiryCandidate (mkSettings w c) today b = true →
        expiryAlertType (mkSettings w c) (b.expiry_date - today) = "expiry_critical") := by
  refine ⟨rfl, by decide, ?_⟩
  intro hcand
  simp only [isExpiryCandidate, Bool.and_eq_true, decide_eq_true_eq] at hcand
  obtain ⟨⟨⟨hact, hlt⟩, hle⟩, hq⟩ := hcand
  apply (expiryAlertType_spec (mkSettings w c) (b.expiry_date - today)).1.mpr
  simp only [mkSettings] at hle ⊢
  omega

/-- Witness for C7 amended: thresholds (5, 5), candidate batch expiring on
day 3 of a day-0 run is classified critical. -/
theorem C7_no_threshold_validation_witness :
    (5 : Int) ≤ 5
    ∧ isExpiryCandidate (mkSettings 5 5) 0 (mkBatchQ 10 3) = true
    ∧ expiryAlertType (mkSettings 5 5) ((mkBatchQ 10 3).expiry_date - 0)
        = "expiry_critical" :=
  ⟨by decide, by decide,
    (C7_no_threshold_validation 5 5 (by decide) (mkBatchQ 10 3) 0).2.2 (by decide)⟩

/-- C8 counterexample: with a configured threshold of 3, the specification
predicate does not select a batch with quantity 4, but the job (whose
threshold is the hardcoded local constant 5, not a configuration input)
creates a low-stock alert for it. -/
theorem C8_counterexample :
    lowStockSelects_spec 3 (mkBatchQ 4 100) = false
    ∧ isLowStockCandidate (mkBatchQ 4 100) = true
    ∧ (check_low_stock 0 (stateWith (mkBatchQ 4 100) [])).alerts.length = 1 := by
  refine ⟨by decide, by decide, by decide⟩

/-- C8 amended: the low-stock job's threshold is the hardcoded constant 5
(check_low_stock reads no configuration); its selection is exactly
is_active and 0 < current_quantity <= 5, agreeing with the specification
predicate only at t = 5; a batch with quantity 5 fires and one with
quantity 6 does not. -/
theorem C8_hardcoded_threshold (b : Batch) :
    LOW_STOCK_THRESHOLD = 5
    ∧ isLowStockCandidate b = lowStockSelects_spec 5 b
    ∧ (isLowStockCandidate b = true ↔
        (b.is_active = true ∧ 0 < b.current_quantity ∧ b.current_quantity ≤ 5))
    ∧ isLowStockCandidate (mkBatchQ 5 100) = true
    ∧ isLowStockCandidate (mkBatchQ 6 100) = false
    ∧ (check_low_stock 0 (stateWith (mkBatchQ 5 100) [])).alerts.length = 1
    ∧ (check_low_stock 0 (stateWith (mkBatchQ 6 100) [])).alerts.length = 0 := by
  refine ⟨rfl, rfl, ?_, by decide, by decide, by decide, by decide⟩
  simp [isLowStockCandidate, LOW_STOCK_THRESHOLD, and_assoc]

/-- C6: the expiry job considers for warning/critical alerting exactly the
batches with is_active = true, current_quantity > 0 and
today < expiry_date <= today + warning_days, joined to their product and
branch rows; and for a batch id all of whose batch rows have zero quantity,
an invocation leaves the alert rows of that batch id untouched — the
quantity gate admits no expiry alert. -/
theorem C6_candidate_selection (se : Settings) (today : Int) (notify : Notify)
    (s : DBState) :
    (∀ b p br, (b, p, br) ∈ expiryCandidateRows se today s ↔
      (b ∈ s.batches ∧ b.is_active = true ∧ 0 < b.current_quantity
        ∧ today < b.expiry_date ∧ b.expiry_date ≤ today + se.EXPIRY_WARNING_DAYS
        ∧ p ∈ s.products ∧ p.id = b.product_id
        ∧ br ∈ s.branches ∧ br.id = b.branch_id))
    ∧ (∀ bid : Nat, (∀ b ∈ s.batches, b.id = bid → b.current_quantity = 0) →
        (check_expiring_batches se today notify s).alerts.filter
            (fun a => a.batch_id == bid)
          = s.alerts.filter (fun a => a.batch_id == bid)) := by
  constructor
  · intro b p br
    simp only [expiryCandidateRows, joinPB, List.mem_flatMap, List.mem_filter,
      List.mem_map, isExpiryCandidate, Bool.and_eq_true, decide_eq_true_eq,
      beq_iff_eq, Prod.mk.injEq]
    constructor
    · rintro ⟨b', ⟨hb', ⟨⟨ha, h1⟩, h2⟩, h3⟩, p', ⟨hp', hpid⟩, br', ⟨hbr', hbid⟩,
        rfl, rfl, rfl⟩
      exact ⟨hb', ha, h3, h1, h2, hp', hpid, hbr', hbid⟩
    · rintro ⟨hb, ha, hq, h1, h2, hp, hpid, hbr, hbid⟩
      exact ⟨b, ⟨hb, ⟨⟨ha, h1⟩, h2⟩, hq⟩, p, ⟨hp, hpid⟩, br, ⟨hbr, hbid⟩,
        rfl, rfl, rfl⟩
  · intro bid hq
    cases hres : expiryPass se today notify s with
    | error e =>
      simp only [check_expiring_batches, hres]
    | ok s' =>
      have hcheck : check_expiring_batches se today notify s = s' := by
        simp only [check_expiring_batches, hres]
      rw [hcheck]
      cases hrun : runCandidates se today notify (expiryCandidateRows se today s)
          (s.alerts, 0, 0) with
      | error e =>
        simp only [expiryPass, hrun] at hres
        simp at hres
      | ok acc =>
        obtain ⟨A', c', n'⟩ := acc
        simp only [expiryPass, hrun, Except.ok.injEq] at hres
        obtain ⟨extra, hext, hmem⟩ :=
          runCandidates_extends se today notify (expiryCandidateRows se today s)
            s.alerts 0 0 (A', c', n') hrun
        have halerts : s'.alerts = s.alerts ++ extra := by
          rw [← hres]
          exact hext
        rw [halerts, List.filter_append]
        have hnil : extra.filter (fun a => a.batch_id == bid) = [] := by
          rw [List.filter_eq_nil_iff]
          intro a ha
          obtain ⟨r, hrr, rfl⟩ := hmem a ha
          obtain ⟨hbm, hcand⟩ := mem_expiryCandidateRows se today s r hrr
          simp only [isExpiryCandidate, Bool.and_eq_true, decide_eq_true_eq] at hcand
          obtain ⟨⟨⟨_, _⟩, _⟩, hpos⟩ := hcand
          simp only [mkExpiryAlert, beq_iff_eq]
          intro heq
          have := hq r.1 hbm heq
          omega
        rw [hnil, List.append_nil]

/-- Witness for C6: a one-batch state whose only batch has quantity zero
and expiry inside the warning window; the run leaves its alert rows (none)
unchanged. -/
theorem C6_candidate_selection_witness :
    (∀ b ∈ (stateWith (mkBatchQ 0 3) []).batches, b.id = 1 → b.current_quantity = 0)
    ∧ (check_expiring_batches defaultSettings 0 notifyOk
          (stateWith (mkBatchQ 0 3) [])).alerts.filter (fun a => a.batch_id == 1)
      = (stateWith (mkBatchQ 0 3) []).alerts.filter (fun a => a.batch_id == 1) :=
  ⟨by decide,
    (C6_candidate_selection defaultSettings 0 notifyOk (stateWith (mkBatchQ 0 3) [])).2
      1 (by decide)⟩

/-- C3: every active, not-yet-expired batch with expiry_date on or before
today is transitioned by one run to is_expired = true, is_active = false
(no quantity filter — the run maps every batch row through expireStep);
the transition happens exactly once: an already-expired batch row is never
selected again (its guard is false and expireStep leaves it unchanged,
so is_expired is never cleared), a second run leaves the batch rows
unchanged, and the run preserves the invariant that is_expired implies
not is_active. -/
theorem C3_expired_transition (se : Settings) (today : Int) (n1 n2 : Notify)
    (s : DBState)
    (hinv : ∀ bid t, dedupCount s.alerts today bid t ≤ 1)
    (hwf : ∀ b ∈ s.batches, b.is_expired = true → b.is_active = false) :
    (check_expiring_batches se today n1 s).batches = s.batches.map (expireStep today)
    ∧ (∀ b : Batch, b.is_active = true → b.is_expired = false →
        b.expiry_date ≤ today →
        (expireStep today b).is_expired = true ∧ (expireStep today b).is_active = false)
    ∧ (∀ b ∈ (check_expiring_batches se today n1 s).batches,
        b.is_expired = true → b.is_active = false)
    ∧ (∀ b : Batch, b.is_expired = true → expireGuard today b = false
        ∧ expireStep today b = b)
    ∧ (check_expiring_batches se today n2 (check_expiring_batches se today n1 s)).batches
        = (check_expiring_batches se today n1 s).batches := by
  obtain ⟨extra, hpass, hcheck, hmem, hcount⟩ := expiryPass_ok se today n1 s hinv
  refine ⟨by rw [hcheck]; rfl, ?_, ?_, ?_,
    by rw [check_expiring_batches_idem se today n1 n2 s hinv]⟩
  · intro b ha he hdl
    exact expireStep_transitions today b ha he hdl
  · intro b hb hexp
    rw [hcheck] at hb
    have hb' : b ∈ s.batches.map (expireStep today) := hb
    obtain ⟨b0, hb0, rfl⟩ := List.mem_map.mp hb'
    exact expireStep_invariant today b0 (hwf b0 hb0) hexp
  · intro b hexp
    exact expireStep_of_expired today b hexp

/-- Witness for C3: a one-batch state whose batch expired yesterday; the
run marks it expired and inactive. -/
theorem C3_expired_transition_witness :
    (∀ bid t, dedupCount (stateWith (mkBatchQ 10 (-1)) []).alerts 0 bid t ≤ 1)
    ∧ (∀ b ∈ (stateWith (mkBatchQ 10 (-1)) []).batches,
        b.is_expired = true → b.is_active = false)
    ∧ (check_expiring_batches defaultSettings 0 notifyOk
          (stateWith (mkBatchQ 10 (-1)) [])).batches
      = (stateWith (mkBatchQ 10 (-1)) []).batches.map (expireStep 0) :=
  ⟨fun bid t => by simp [dedupCount, stateWith], by decide,
    (C3_expired_transition defaultSettings 0 notifyOk notifyOk
      (stateWith (mkBatchQ 10 (-1)) [])
      (fun bid t => by simp [dedupCount, stateWith]) (by decide)).1⟩

/-- C9: the low-stock job performs no batch-state transition; its dedup
predicate ignores created_at entirely (no calendar-day scoping), matching
only pending rows of type low_stock, so a pending low-stock alert from any
earlier day suppresses creation and an acknowledged or resolved one does
not; for every low-stock candidate a new alert exists after the run if and
only if one did not before (the count becomes max of the old count and 1);
and every created alert has level info, type low_stock, status pending, and
was created only for a batch with no prior pending low-stock alert. -/
theorem C9_low_stock_dedup (today : Int) (s : DBState)
    (hinv : ∀ bid, pendingLowStockCount s.alerts bid ≤ 1) :
    (check_low_stock today s).batches = s.batches
    ∧ (∀ (bid : Nat) (a : Alert) (c : Int),
        lowStockDedupMatch bid { a with created_at := c } = lowStockDedupMatch bid a)
    ∧ (∀ b p br, (b, p, br) ∈ lowStockRows s →
        pendingLowStockCount (check_low_stock today s).alerts b.id
          = max (pendingLowStockCount s.alerts b.id) 1)
    ∧ (∃ extra, (check_low_stock today s).alerts = s.alerts ++ extra
        ∧ ∀ a ∈ extra, a.alert_level = "info" ∧ a.alert_type = "low_stock"
            ∧ a.status = "pending" ∧ pendingLowStockCount s.alerts a.batch_id = 0) := by
  obtain ⟨extra, c', hrun, hmem, hcount⟩ :=
    runLowStock_ok today (lowStockRows s) s.alerts 0 hinv
  have hcheck : check_low_stock today s = { s with alerts := s.alerts ++ extra } := by
    simp only [check_low_stock, lowStockPass, hrun]
  refine ⟨by rw [hcheck], ?_, ?_, ?_⟩
  · intro bid a c
    simp [lowStockDedupMatch]
  · intro b p br hr
    rw [hcheck]
    show pendingLowStockCount (s.alerts ++ extra) b.id
      = max (pendingLowStockCount s.alerts b.id) 1
    rw [hcount b.id]
    have hany : (lowStockRows s).any (fun r => r.1.id == b.id) = true :=
      List.any_eq_true.mpr ⟨(b, p, br), hr, by simp⟩
    rw [hany]
    exact if_pos rfl
  · refine ⟨extra, by rw [hcheck], ?_⟩
    intro a ha
    obtain ⟨⟨r, hrr, rfl⟩, hz⟩ := hmem a ha
    exact ⟨rfl, rfl, rfl, hz⟩

/-- Witness for C9: a one-batch low-stock state (quantity 2) with an empty
alert table; the run leaves the batch rows unchanged. -/
theorem C9_low_stock_dedup_witness :
    (∀ bid, pendingLowStockCount (stateWith (mkBatchQ 2 100) []).alerts bid ≤ 1)
    ∧ (check_low_stock 0 (stateWith (mkBatchQ 2 100) [])).batches
      = (stateWith (mkBatchQ 2 100) []).batches :=
  ⟨fun bid => by simp [pendingLowStockCount, stateWith],
    (C9_low_stock_dedup 0 (stateWith (mkBatchQ 2 100) [])
      (fun bid => by simp [pendingLowStockCount, stateWith])).1⟩

/-- C1: for every candidate row, the day-1 run leaves exactly one alert
matching the dedup query for (batch, tier-derived alert type, created on or
after day 1) — one is created exactly when none existed; running the job a
second time in the same calendar day is a complete no-op on the store; and
for a batch that is a candidate on two consecutive days with the same
tier-derived alert type, starting from a state with no alert created on or
after day 1, there is exactly one alert of that type created on each of the
two days. -/
theorem C1_daily_dedup (se : Settings) (d1 d2 : Int) (n1 n2 n3 : Notify) (s : DBState)
    (hinv : ∀ bid t, dedupCount s.alerts d1 bid t ≤ 1) (hd : d1 < d2) :
    (∀ b p br, (b, p, br) ∈ expiryCandidateRows se d1 s →
      dedupCount (check_expiring_batches se d1 n1 s).alerts d1 b.id
          (expiryAlertType se (b.expiry_date - d1))
        = max (dedupCount s.alerts d1 b.id (expiryAlertType se (b.expiry_date - d1))) 1)
    ∧ check_expiring_batches se d1 n2 (check_expiring_batches se d1 n1 s)
        = check_expiring_batches se d1 n1 s
    ∧ ((∀ a ∈ s.alerts, a.created_at < d1) →
      ∀ b p br, (b, p, br) ∈ expiryCandidateRows se d1 s →
        (b, p, br) ∈ expiryCandidateRows se d2 (check_expiring_batches se d1 n1 s) →
        expiryAlertType se (b.expiry_date - d2) = expiryAlertType se (b.expiry_date - d1) →
        dayAlertCount (check_expiring_batches se d2 n3
            (check_expiring_batches se d1 n1 s)).alerts d1 b.id
            (expiryAlertType se (b.expiry_date - d1)) = 1
        ∧ dayAlertCount (check_expiring_batches se d2 n3
            (check_expiring_batches se d1 n1 s)).alerts d2 b.id
            (expiryAlertType se (b.expiry_date - d1)) = 1) := by
  obtain ⟨extra1, hpass1, hcheck1, hmem1x, hcount1⟩ := expiryPass_ok se d1 n1 s hinv
  refine ⟨?_, check_expiring_batches_idem se d1 n1 n2 s hinv, ?_⟩
  · intro b p br hr
    rw [hcheck1]
    show dedupCount (s.alerts ++ extra1) d1 b.id (expiryAlertType se (b.expiry_date - d1)) = _
    rw [hcount1 b.id (expiryAlertType se (b.expiry_date - d1))]
    have hany : (expiryCandidateRows se d1 s).any (fun r => r.1.id == b.id
        && expiryAlertType se (r.1.expiry_date - d1)
          == expiryAlertType se (b.expiry_date - d1)) = true :=
      List.any_eq_true.mpr ⟨(b, p, br), hr, by simp⟩
    rw [hany]
    exact if_pos rfl
  · intro hclean b p br hr1 hr2 hty
    have hext1 : ∀ a ∈ extra1, a.created_at = d1 := by
      intro a ha
      obtain ⟨r, _, rfl⟩ := hmem1x a ha
      rfl
    have hb1 : ∀ a ∈ s.alerts ++ extra1, a.created_at < d2 := by
      intro a ha
      rcases List.mem_append.mp ha with h | h
      · have := hclean a h
        omega
      · rw [hext1 a h]
        exact hd
    have hinv2 : ∀ bid t,
        dedupCount (check_expiring_batches se d1 n1 s).alerts d2 bid t ≤ 1 := by
      intro bid t
      rw [hcheck1]
      show dedupCount (s.alerts ++ extra1) d2 bid t ≤ 1
      rw [dedupCount_eq_zero_of_lt _ _ _ _ hb1]
      omega
    obtain ⟨extra2, hpass2, hcheck2, hmem2x, hcount2⟩ :=
      expiryPass_ok se d2 n3 (check_expiring_batches se d1 n1 s) hinv2
    have hext2 : ∀ a ∈ extra2, a.created_at = d2 := by
      intro a ha
      obtain ⟨r, _, rfl⟩ := hmem2x a ha
      rfl
    rw [hcheck2]
    have halerts2 : (afterExpiry d2 (check_expiring_batches se d1 n1 s) extra2).alerts
        = (s.alerts ++ extra1) ++ extra2 := by
      rw [afterExpiry, hcheck1]
      rfl
    rw [halerts2]
    have hkey1 : dedupCount extra1 d1 b.id (expiryAlertType se (b.expiry_date - d1)) = 1 := by
      have h1 := hcount1 b.id (expiryAlertType se (b.expiry_date - d1))
      have hany : (expiryCandidateRows se d1 s).any (fun r => r.1.id == b.id
          && expiryAlertType se (r.1.expiry_date - d1)
            == expiryAlertType se (b.expiry_date - d1)) = true :=
        List.any_eq_true.mpr ⟨(b, p, br), hr1, by simp⟩
      rw [hany, if_pos rfl] at h1
      have hz : dedupCount s.alerts d1 b.id (expiryAlertType se (b.expiry_date - d1)) = 0 :=
        dedupCount_eq_zero_of_lt _ _ _ _ hclean
      rw [dedupCount_append, hz] at h1
      omega
    have hkey2 : dedupCount extra2 d2 b.id (expiryAlertType se (b.expiry_date - d1)) = 1 := by
      have h1 := hcount2 b.id (expiryAlertType se (b.expiry_date - d1))
      have hany : (expiryCandidateRows se d2 (check_expiring_batches se d1 n1 s)).any
          (fun r => r.1.id == b.id && expiryAlertType se (r.1.expiry_date - d2)
            == expiryAlertType se (b.expiry_date - d1)) = true :=
        List.any_eq_true.mpr ⟨(b, p, br), hr2, by simp [hty]⟩
      rw [hany, if_pos rfl] at h1
      have hz : dedupCount (check_expiring_batches se d1 n1 s).alerts d2 b.id
          (expiryAlertType se (b.expiry_date - d1)) = 0 := by
        rw [hcheck1]
        exact dedupCount_eq_zero_of_lt _ _ _ _ hb1
      rw [dedupCount_append, hz] at h1
      omega
    constructor
    · rw [dayAlertCount_append, dayAlertCount_append]
      have hz0 : dayAlertCount s.alerts d1 b.id (expiryAlertType se (b.expiry_date - d1)) = 0 :=
        dayAlertCount_eq_zero_of_ne _ _ _ _ (fun a ha => by have := hclean a ha; omega)
      have hz2 : dayAlertCount extra2 d1 b.id (expiryAlertType se (b.expiry_date - d1)) = 0 :=
        dayAlertCount_eq_zero_of_ne _ _ _ _ (fun a ha => by rw [hext2 a ha]; omega)
      have h1' : dayAlertCount extra1 d1 b.id (expiryAlertType se (b.expiry_date - d1)) = 1 := by
        rw [dayAlertCount_eq_dedupCount _ _ _ _ hext1]
        exact hkey1
      omega
    · rw [dayAlertCount_append, dayAlertCount_append]
      have hz0 : dayAlertCount s.alerts d2 b.id (expiryAlertType se (b.expiry_date - d1)) = 0 :=
        dayAlertCount_eq_zero_of_ne _ _ _ _ (fun a ha => by have := hclean a ha; omega)
      have hz1 : dayAlertCount extra1 d2 b.id (expiryAlertType se (b.expiry_date - d1)) = 0 :=
        dayAlertCount_eq_zero_of_ne _ _ _ _ (fun a ha => by rw [hext1 a ha]; omega)
      have h2' : dayAlertCount extra2 d2 b.id (expiryAlertType se (b.expiry_date - d1)) = 1 := by
        rw [dayAlertCount_eq_dedupCount _ _ _ _ hext2]
        exact hkey2
      omega

/-- Witness for C1: one warning-tier batch, empty alert table, days 0
and 1; the second same-day run is a no-op. -/
theorem C1_daily_dedup_witness :
    (∀ bid t, dedupCount (stateWith (mkBatchQ 10 5) []).alerts 0 bid t ≤ 1)
    ∧ (0 : Int) < 1
    ∧ check_expiring_batches defaultSettings 0 notifyOk
        (check_expiring_batches defaultSettings 0 notifyOk (stateWith (mkBatchQ 10 5) []))
      = check_expiring_batches defaultSettings 0 notifyOk (stateWith (mkBatchQ 10 5) []) :=
  ⟨fun bid t => by simp [dedupCount, stateWith], by decide,
    (C1_daily_dedup defaultSettings 0 1 notifyOk notifyOk notifyOk
      (stateWith (mkBatchQ 10 5) [])
      (fun bid t => by simp [dedupCount, stateWith]) (by decide)).2.1⟩

end ExpiryX
